import Mathlib

/-!
Verification of the FHIR search-query compiler of `pyfhirstore`
(`fhirstore/search/corequerybuilder.py`, `fhirstore/search/bundle.py`,
`fhirstore/search/searcharguments.py`, `fhirstore/fhirstore.py`).

The Python functions are shallowly embedded as executable Lean functions.
Python dictionaries become insertion-ordered association lists, the
dynamically shaped elasticsearch query dictionaries become the tagged
union `EsQuery` (one constructor per dictionary shape the code builds),
and code paths that raise an uncaught Python exception return `none`.
-/

/-- A search value, as passed to `build_element_query`: either a string or a
numeric literal (the code checks `isinstance(value, int/float)`). -/
inductive SVal where
  | str (s : String)
  | num (n : Int)
deriving DecidableEq, Repr

/-- The elasticsearch query trees built by `corequerybuilder.py`, one
constructor per dictionary shape the Python code constructs.
`simpleQS q fs fl` is `{"simple_query_string": {"query": q, "fields": fs?,
"flags": fl?}}` (with `fields`/`flags` keys only when the options are `some`),
`queryString` is `{"query_string": ...}`, `matchQ` is `{"match": {f: v}}`,
`range f op v` is `{"range": {f: {op: v}}}`, `boolMust`/`boolShould` are
`{"bool": {"must"/"should": [...]}}`, `matchAll` is `{"match_all": {}}` and
`emptyQ` is the empty defaultdict returned when no branch fires (the
`:above`/`:of-type` modifiers, which the regex admits but no branch handles). -/
inductive EsQuery where
  | matchQ (field : String) (value : SVal)
  | range (field : String) (op : String) (value : String)
  | simpleQS (query : String) (fields : Option (List String)) (flags : Option String)
  | queryString (query : String) (fields : List String)
  | boolMust (children : List EsQuery)
  | boolShould (children : List EsQuery)
  | matchAll
  | emptyQ
deriving Repr

mutual

/-- Boolean equality on `EsQuery` (nested inductive, so written by hand). -/
def beqQ : EsQuery → EsQuery → Bool
  | .matchQ f v, .matchQ f' v' => f == f' && v == v'
  | .range f o v, .range f' o' v' => f == f' && o == o' && v == v'
  | .simpleQS q fs fl, .simpleQS q' fs' fl' => q == q' && fs == fs' && fl == fl'
  | .queryString q fs, .queryString q' fs' => q == q' && fs == fs'
  | .boolMust l, .boolMust l' => beqQL l l'
  | .boolShould l, .boolShould l' => beqQL l l'
  | .matchAll, .matchAll => true
  | .emptyQ, .emptyQ => true
  | _, _ => false

/-- Boolean equality on lists of `EsQuery`. -/
def beqQL : List EsQuery → List EsQuery → Bool
  | [], [] => true
  | a :: as, b :: bs => beqQ a b && beqQL as bs
  | _, _ => false

end

mutual

def beqQ_refl : ∀ a : EsQuery, beqQ a a = true
  | .matchQ f v => by simp [beqQ]
  | .range f o v => by simp [beqQ]
  | .simpleQS q fs fl => by simp [beqQ]
  | .queryString q fs => by simp [beqQ]
  | .boolMust l => by simp only [beqQ]; exact beqQL_refl l
  | .boolShould l => by simp only [beqQ]; exact beqQL_refl l
  | .matchAll => rfl
  | .emptyQ => rfl

def beqQL_refl : ∀ l : List EsQuery, beqQL l l = true
  | [] => rfl
  | a :: as => by simp [beqQL, beqQ_refl a, beqQL_refl as]

end

mutual

def beqQ_eq : ∀ a b : EsQuery, beqQ a b = true → a = b
  | .matchQ f v, .matchQ f' v' => fun h => by
      simp only [beqQ, Bool.and_eq_true, beq_iff_eq] at h
      rw [h.1, h.2]
  | .range f o v, .range f' o' v' => fun h => by
      simp only [beqQ, Bool.and_eq_true, beq_iff_eq] at h
      rw [h.1.1, h.1.2, h.2]
  | .simpleQS q fs fl, .simpleQS q' fs' fl' => fun h => by
      simp only [beqQ, Bool.and_eq_true, beq_iff_eq] at h
      rw [h.1.1, h.1.2, h.2]
  | .queryString q fs, .queryString q' fs' => fun h => by
      simp only [beqQ, Bool.and_eq_true, beq_iff_eq] at h
      rw [h.1, h.2]
  | .boolMust l, .boolMust l' => by
      simp only [beqQ]; intro h; rw [beqQL_eq l l' h]
  | .boolShould l, .boolShould l' => by
      simp only [beqQ]; intro h; rw [beqQL_eq l l' h]
  | .matchAll, .matchAll => fun _ => rfl
  | .emptyQ, .emptyQ => fun _ => rfl
  | .matchQ _ _, .range .. | .matchQ _ _, .simpleQS .. | .matchQ _ _, .queryString ..
  | .matchQ _ _, .boolMust _ | .matchQ _ _, .boolShould _ | .matchQ _ _, .matchAll
  | .matchQ _ _, .emptyQ
  | .range .., .matchQ _ _ | .range .., .simpleQS .. | .range .., .queryString ..
  | .range .., .boolMust _ | .range .., .boolShould _ | .range .., .matchAll
  | .range .., .emptyQ
  | .simpleQS .., .matchQ _ _ | .simpleQS .., .range .. | .simpleQS .., .queryString ..
  | .simpleQS .., .boolMust _ | .simpleQS .., .boolShould _ | .simpleQS .., .matchAll
  | .simpleQS .., .emptyQ
  | .queryString .., .matchQ _ _ | .queryString .., .range .. | .queryString .., .simpleQS ..
  | .queryString .., .boolMust _ | .queryString .., .boolShould _ | .queryString .., .matchAll
  | .queryString .., .emptyQ
  | .boolMust _, .matchQ _ _ | .boolMust _, .range .. | .boolMust _, .simpleQS ..
  | .boolMust _, .queryString .. | .boolMust _, .boolShould _ | .boolMust _, .matchAll
  | .boolMust _, .emptyQ
  | .boolShould _, .matchQ _ _ | .boolShould _, .range .. | .boolShould _, .simpleQS ..
  | .boolShould _, .queryString .. | .boolShould _, .boolMust _ | .boolShould _, .matchAll
  | .boolShould _, .emptyQ
  | .matchAll, .matchQ _ _ | .matchAll, .range .. | .matchAll, .simpleQS ..
  | .matchAll, .queryString .. | .matchAll, .boolMust _ | .matchAll, .boolShould _
  | .matchAll, .emptyQ
  | .emptyQ, .matchQ _ _ | .emptyQ, .range .. | .emptyQ, .simpleQS ..
  | .emptyQ, .queryString .. | .emptyQ, .boolMust _ | .emptyQ, .boolShould _
  | .emptyQ, .matchAll => by simp [beqQ]

def beqQL_eq : ∀ l1 l2 : List EsQuery, beqQL l1 l2 = true → l1 = l2
  | [], [] => fun _ => rfl
  | a :: as, b :: bs => by
      simp only [beqQL, Bool.and_eq_true]
      intro h
      rw [beqQ_eq a b h.1, beqQL_eq as bs h.2]
  | [], _ :: _ => by simp [beqQL]
  | _ :: _, [] => by simp [beqQL]

end

instance : DecidableEq EsQuery := fun a b =>
  decidable_of_iff (beqQ a b = true) ⟨beqQ_eq a b, fun h => h ▸ beqQ_refl a⟩

/-- The `[0-9]` of the regexes in `corequerybuilder.py`. -/
def isDig (c : Char) : Bool := '0' ≤ c && c ≤ '9'

/-- The `[1-9]` of the regexes in `corequerybuilder.py`. -/
def isNZ (c : Char) : Bool := '1' ≤ c && c ≤ '9'

/-- The `[1-9][0-9]*`, the tail of the first alternative of `is_numeric_type`. -/
def intTail : List Char → Bool
  | [] => false
  | c :: rest => isNZ c && rest.all isDig

/-- First alternative of `is_numeric_type`: `^([0]|[-+]?[1-9][0-9]*)$`. -/
def numBranch1 (l : List Char) : Bool :=
  match l with
  | ['0'] => true
  | '+' :: rest => intTail rest
  | '-' :: rest => intTail rest
  | _ => intTail l

/-- The `([eE][+-]?[0-9]+)?$`: the optional exponent of the second alternative of
`is_numeric_type`, followed by the end of the string. -/
def expTail : List Char → Bool
  | [] => true
  | c :: rest =>
    (c == 'e' || c == 'E') &&
      (match rest with
       | [] => false
       | s :: rest2 =>
         if s == '+' || s == '-' then !rest2.isEmpty && rest2.all isDig
         else (s :: rest2).all isDig)

/-- The `(\.[0-9]+)?` followed by `expTail`. -/
def fracTail : List Char → Bool
  | '.' :: rest =>
    let p := rest.span isDig
    !p.1.isEmpty && expTail p.2
  | l => expTail l

/-- The `(0|[1-9][0-9]*)(\.[0-9]+)?([eE][+-]?[0-9]+)?$`: the unsigned part of the
second alternative of `is_numeric_type`. -/
def numIntFrac : List Char → Bool
  | [] => false
  | '0' :: rest => fracTail rest
  | c :: rest => isNZ c && fracTail (rest.dropWhile isDig)

/-- Second alternative of `is_numeric_type`:
`^(-?(0|[1-9][0-9]*)(\.[0-9]+)?([eE][+-]?[0-9]+)?)$`. -/
def numBranch2 : List Char → Bool
  | '-' :: rest => numIntFrac rest
  | l => numIntFrac l

/-- The year group `([0-9]([0-9]([0-9][1-9]|[1-9]0)|[1-9]00)|[1-9]000)`. -/
def yearOk (c1 c2 c3 c4 : Char) : Bool :=
  (isDig c1 &&
    ((isDig c2 && ((isDig c3 && isNZ c4) || (isNZ c3 && c4 == '0'))) ||
     (isNZ c2 && c3 == '0' && c4 == '0'))) ||
  (isNZ c1 && c2 == '0' && c3 == '0' && c4 == '0')

/-- The month group `(0[1-9]|1[0-2])`. -/
def monthOk (a b : Char) : Bool :=
  (a == '0' && isNZ b) || (a == '1' && (b == '0' || b == '1' || b == '2'))

/-- The day group `(0[1-9]|[1-2][0-9]|3[0-1])`. -/
def dayOk (a b : Char) : Bool :=
  (a == '0' && isNZ b) || ((a == '1' || a == '2') && isDig b) ||
  (a == '3' && (b == '0' || b == '1'))

/-- The hour group `([01][0-9]|2[0-3])`. -/
def hourOk (a b : Char) : Bool :=
  ((a == '0' || a == '1') && isDig b) ||
  (a == '2' && (b == '0' || b == '1' || b == '2' || b == '3'))

/-- The minute group `[0-5][0-9]`. -/
def minuteOk (a b : Char) : Bool := ('0' ≤ a && a ≤ '5') && isDig b

/-- The second group `([0-5][0-9]|60)`. -/
def secondOk (a b : Char) : Bool := minuteOk a b || (a == '6' && b == '0')

/-- The timezone group `(Z|(\+|-)((0[0-9]|1[0-3]):[0-5][0-9]|14:00))`,
which must reach the end of the string. -/
def zoneOk : List Char → Bool
  | ['Z'] => true
  | [s, a, b, ':', c, d] =>
    (s == '+' || s == '-') &&
      ((((a == '0' && isDig b) ||
         (a == '1' && (b == '0' || b == '1' || b == '2' || b == '3'))) && minuteOk c d) ||
       (a == '1' && b == '4' && c == '0' && d == '0'))
  | _ => false

/-- The optional fraction `(\.[0-9]+)?` followed by the mandatory timezone. -/
def fracZone : List Char → Bool
  | '.' :: rest =>
    let p := rest.span isDig
    !p.1.isEmpty && zoneOk p.2
  | l => zoneOk l

/-- The time-of-day part after `T`: `hh:mm:ss` then fraction/zone. -/
def timeTail : List Char → Bool
  | h1 :: h2 :: ':' :: m1 :: m2 :: ':' :: s1 :: s2 :: rest =>
    hourOk h1 h2 && minuteOk m1 m2 && secondOk s1 s2 && fracZone rest
  | _ => false

/-- After the day: end of string or `T` plus a time. -/
def afterDay : List Char → Bool
  | [] => true
  | 'T' :: rest => timeTail rest
  | _ => false

/-- After the month: end of string or `-dd` plus `afterDay`. -/
def afterMonth : List Char → Bool
  | [] => true
  | '-' :: d1 :: d2 :: rest => dayOk d1 d2 && afterDay rest
  | _ => false

/-- After the year: end of string or `-mm` plus `afterMonth`. -/
def afterYear : List Char → Bool
  | [] => true
  | '-' :: m1 :: m2 :: rest => monthOk m1 m2 && afterMonth rest
  | _ => false

/-- Third alternative of `is_numeric_type`: the FHIR date/dateTime grammar. -/
def numBranch3 : List Char → Bool
  | c1 :: c2 :: c3 :: c4 :: rest => yearOk c1 c2 c3 c4 && afterYear rest
  | _ => false

/-- Full match of one of the three alternatives of the `is_numeric_type`
regex against a newline-free character list. -/
def numericCore (l : List Char) : Bool := numBranch1 l || numBranch2 l || numBranch3 l

/-- Python's `$` anchor (without `re.MULTILINE`) also matches just before one
final newline: `stripNl` returns the newline-free body of a string that the
anchored regexes can fully match (dropping one trailing newline), and `none`
when the string contains an interior newline, which makes every alternative
of the anchored regexes fail. -/
def stripNl (l : List Char) : Option (List Char) :=
  if l.contains '\n' then
    if l.getLast? == some '\n' && !(l.dropLast.contains '\n') then some l.dropLast
    else none
  else some l

/-- The `is_numeric_type(argument)` of `corequerybuilder.py`, as a boolean (the
Python code only uses the truthiness of the returned match object). -/
def is_numeric_type (s : String) : Bool :=
  match stripNl s.data with
  | some l => numericCore l
  | none => false

/-- Whether two characters form one of the prefixes `ne|eq|gt|lt|ge|le`. -/
def prefixPair (a b : Char) : Bool :=
  (a == 'n' && b == 'e') || (a == 'e' && b == 'q') || (a == 'g' && b == 't') ||
  (a == 'l' && b == 't') || (a == 'g' && b == 'e') || (a == 'l' && b == 'e')

/-- The `check_prefix(value)` of `corequerybuilder.py`: `re.search` of
`^(ne|eq|gt|lt|ge|le)(.*)$` followed by `is_numeric_type` on group 2.
Group 2 is everything after the first two characters, minus one trailing
newline (tolerated by `$`); `(.*)` cannot cross an interior newline, in which
case the regex does not match. -/
def check_prefix (value : String) : Option String × String :=
  match value.data with
  | a :: b :: rest =>
    if prefixPair a b then
      match stripNl rest with
      | some rest2 =>
        if numericCore rest2 then (some ⟨[a, b]⟩, ⟨rest2⟩) else (none, value)
      | none => (none, value)
    else (none, value)
  | _ => (none, value)

/-- The string-modifier names admitted by the regex in `build_element_query`. -/
def isModifierName (l : List Char) : Bool :=
  (⟨l⟩ : String) ∈
    ["contains", "exact", "above", "below", "not", "in", "not-in", "of-type", "identifier"]

/-- Rightmost split of a character list at a `:` whose suffix is a modifier
name (the greedy `(.*)` of the regex backtracks to the rightmost such colon). -/
def modSplit : List Char → Option (List Char × List Char)
  | [] => none
  | c :: rest =>
    match modSplit rest with
    | some (f, m) => some (c :: f, m)
    | none => if c == ':' && isModifierName rest then some ([], rest) else none

/-- The `string_modif` regex of `build_element_query`:
`^(.*):(contains|exact|above|below|not|in|not-in|of-type|identifier)$` applied
to the field key, returning (group 1, group 2). `$` tolerates one trailing
newline; an interior newline makes the match fail. -/
def stringModif (key : String) : Option (String × String) :=
  match stripNl key.data with
  | some l => (modSplit l).map (fun p => ((⟨p.1⟩ : String), (⟨p.2⟩ : String)))
  | none => none

/-- The `re.split` on a single-character separator, Python semantics. -/
def splitOnChar (sep : Char) : List Char → List (List Char)
  | [] => [[]]
  | c :: rest =>
    if c == sep then [] :: splitOnChar sep rest
    else
      match splitOnChar sep rest with
      | [] => [[c]]
      | h :: t => (c :: h) :: t

/-- The body of the string-modifier branch of `build_element_query`, given
group 1 (the bare field), group 2 (the modifier) and the (already
prefix-stripped) value. The `above` and `of-type` modifiers match the regex
but have no branch, leaving the element query an empty defaultdict. -/
def modifierQuery (sfield smodifier v : String) : EsQuery :=
  if smodifier = "contains" then .queryString ("*" ++ v ++ "*") [sfield]
  else if smodifier = "exact" then
    .simpleQS ("\"" ++ v ++ "\"") (some [sfield]) (some "PHRASE")
  else if smodifier = "not" then .simpleQS ("-" ++ v) (some [sfield]) none
  else if smodifier = "not-in" then .simpleQS ("-" ++ v) (some [sfield]) none
  else if smodifier = "in" then
    .simpleQS ("\"" ++ v ++ "\"") (some [sfield]) (some "PHRASE")
  else if smodifier = "below" then .simpleQS ("(" ++ v ++ ")*") (some [sfield]) none
  else if smodifier = "identifier" then
    .simpleQS ("\"" ++ v ++ "\"") (some [sfield ++ ".identifier.value"]) (some "PHRASE")
  else .emptyQ

/-- The `number_prefix_matching` of `corequerybuilder.py`. -/
def number_prefix_matching : List (String × String) :=
  [("gt", "gt"), ("ge", "gte"), ("lt", "lt"), ("le", "lte")]

/-- The `build_element_query(key, value)` of `corequerybuilder.py`.
`none` models an uncaught Python exception (`re.split` unpacking a value
with more than one `|`). -/
def build_element_query (key : String) (value : SVal) : Option EsQuery :=
  match value with
  | .num n => some (.matchQ key (.num n))
  | .str v0 =>
    let pr := check_prefix v0
    let v := pr.2
    if key = "_text" || key = "_content" then some (.simpleQS v none none)
    else
      match stringModif key with
      | some (sfield, smodifier) => some (modifierQuery sfield smodifier v)
      | none =>
        match pr.1 with
        | some p =>
          match number_prefix_matching.find? (fun q => q.1 = p) with
          | some q => some (.range key q.2 v)
          | none =>
            if p = "eq" then some (.matchQ key (.str v))
            else some (.simpleQS ("-" ++ v) (some [key]) none)
        | none =>
          if v.data.contains '|' then
            match splitOnChar '|' v.data with
            | [s, c] =>
              some (.boolMust
                [.simpleQS ("\"" ++ (⟨s⟩ : String) ++ "\"") (some [key ++ ".system"])
                   (some "PHRASE"),
                 .simpleQS ("\"" ++ (⟨c⟩ : String) ++ "\"")
                   (some [key ++ ".code", key ++ ".value"]) (some "PHRASE")])
            | _ => none
          else some (.simpleQS ("\"" ++ v ++ "\"") (some [key]) (some "PHRASE"))

/-- A value of the core-args dictionary: an ordinary field maps to a list of
values, the synthetic `"multiple"` bucket maps to an inner dictionary from a
field to its OR-values. -/
inductive CoreVal where
  | vals (l : List SVal)
  | mdict (m : List (String × List SVal))
deriving DecidableEq, Repr

/-- A Python dict as an insertion-ordered association list (keys distinct). -/
abbrev CoreArgs := List (String × CoreVal)

/-- Dictionary lookup (`dict.get`). -/
def lookupArg (args : CoreArgs) (key : String) : Option CoreVal :=
  (args.find? (fun p => p.1 = key)).map (fun p => p.2)

/-- The `build_simple_query(dict_args)` of `corequerybuilder.py`. `none` models an
uncaught exception (indexing an empty dict, or a truthy `"multiple"` entry
that is not a dict). -/
def build_simple_query (dict_args : CoreArgs) : Option EsQuery :=
  match lookupArg dict_args "multiple" with
  | some (.mdict (e :: _)) =>
    let multiple_key := e.1
    let multiple_values := e.2
    (multiple_values.mapM (build_element_query multiple_key)).map
      (fun content => .boolShould content)
  | some (.vals (_ :: _)) => none
  | _ =>
    match dict_args with
    | [] => none
    | (key, .vals values) :: _ =>
      match values with
      | [v] => build_element_query key v
      | _ => (values.mapM (build_element_query key)).map (fun content => .boolMust content)
    | (key, .mdict m) :: _ =>
      match m with
      | [] => some (.boolMust [])
      | _ =>
        ((m.map (fun q => SVal.str q.1)).mapM (build_element_query key)).map
          (fun content => .boolMust content)

/-- The `build_core_query(core_args)` of `corequerybuilder.py`. -/
def build_core_query (core_args : CoreArgs) : Option EsQuery :=
  match core_args with
  | [] => some .matchAll
  | [_] => build_simple_query core_args
  | _ =>
    (core_args.mapM (fun e => build_simple_query [e])).map
      (fun inter_query => .boolMust inter_query)

/-- A FHIR resource body, as far as the search orchestrator inspects it:
`attrs` maps an attribute name to the `"reference"` string stored under it
(modelling `resource[attr]["reference"]`; an absent pair models both an
absent attribute and an attribute without a `reference` key, which raise
the same `KeyError`). -/
structure Resource where
  attrs : List (String × String)
deriving DecidableEq, Repr

/-- The `resource[attr]["reference"]`, `none` when Python raises `KeyError`. -/
def Resource.ref (r : Resource) (attr : String) : Option String :=
  ((r.attrs.find? (fun p => p.1 = attr)).map (fun p => p.2))

/-- One element of the bundle's `entry` list:
`{"resource": ..., "search": {"mode": ...}}`. -/
structure EntryItem where
  resource : Resource
  mode : String
deriving DecidableEq, Repr

/-- The `issue` dictionary written by `Bundle.fill_error`. -/
structure IssueR where
  severity : String
  code : String
  details : Option String
  diagnostic : Option String
deriving DecidableEq, Repr

/-- The mutable `Bundle.content` dictionary of `bundle.py`. Keys that the
code pops are modelled as `Option` fields (`none` = key absent). -/
structure Bundle where
  resource_type : String
  total : Option Nat
  entry : Option (List EntryItem)
  tag : Option String
  issue : Option IssueR
deriving DecidableEq, Repr

/-- The `Bundle.__init__`: `{"resource_type": "Bundle", "total": 0, "entry": []}`. -/
def Bundle.init : Bundle :=
  { resource_type := "Bundle", total := some 0, entry := some [], tag := none, issue := none }

/-- One entry of a `_sort` specification: a bare field name, or
`{field: {"order": dir}}`. -/
inductive SortItem where
  | plain (s : String)
  | ordered (field : String) (order : String)
deriving DecidableEq, Repr

/-- The `formatting_args` dictionary of `SearchArguments`. -/
structure FormattingArgs where
  /-- the `"include"` key (named `incl` because `include` is reserved in Lean) -/
  incl : Option (List String)
  is_summary_count : Bool
  summary : Bool
  elements : Option (List String)
  sort : Option (List SortItem)
deriving DecidableEq, Repr

/-- Python truthiness of an optional list (`None` and `[]` are falsy). -/
def truthyL {α : Type} : Option (List α) → Bool
  | some (_ :: _) => true
  | _ => false

/-- An elasticsearch response as `bundle.py` inspects it: `{}` (the initial
`included_hits`), a count response `{"count": n, ...}`, or a search response
`{"hits": {"hits": [{"_source": ...}, ...], "total": {"value": n}}, ...}`. -/
inductive Hits where
  | empty
  | count (n : Nat)
  | results (hits : List Resource) (total : Nat)
deriving DecidableEq, Repr

/-- The `Bundle.fill(hits, formatting_args)` of `bundle.py`. `none` models an
uncaught `KeyError` (popping or appending to an absent `entry`, an absent
`total`, or a response of the wrong shape). -/
def Bundle.fill (b : Bundle) (hits : Hits) (formatting_args : FormattingArgs) :
    Option Bundle :=
  (if formatting_args.is_summary_count then
    match b.entry with
    | none => none
    | some _ =>
      let b1 : Bundle := { b with tag := some "SUBSETTED", entry := none }
      match hits with
      | .empty => some b1
      | .count n =>
        match b1.total with
        | some t => some { b1 with total := some (t + n) }
        | none => none
      | .results _ _ => none
  else
    match hits with
    | .empty => some b
    | .count _ => none
    | .results l t =>
      match l with
      | [] =>
        match b.total with
        | some t0 => some { b with total := some (t0 + t) }
        | none => none
      | _ =>
        match b.entry, b.total with
        | some e, some t0 =>
          some { b with entry := some (e ++ l.map (fun h => EntryItem.mk h "match")),
                        total := some (t0 + t) }
        | _, _ => none).map
    (fun (b2 : Bundle) =>
      if truthyL formatting_args.elements || formatting_args.summary then
        { b2 with tag := some "SUBSETTED" }
      else b2)

/-- The `Bundle.append(included_hits, formatting_args)` of `bundle.py`. `none`
models the uncaught `KeyError` of appending to an absent `entry`. -/
def Bundle.append (b : Bundle) (included_hits : Hits) (formatting_args : FormattingArgs) :
    Option Bundle :=
  if truthyL formatting_args.incl &&
      (match included_hits with | .results _ _ => true | _ => false) then
    match included_hits with
    | .results l _ =>
      match l with
      | [] => some b
      | _ =>
        match b.entry with
        | some e => some { b with entry := some (e ++ l.map (fun h => EntryItem.mk h "include")) }
        | none => none
    | _ => some b
  else some b

/-- The `Bundle.fill_error(severity, code, details, diagnostic)` of `bundle.py`:
sets the error shape and pops `total`, `entry` and `tag`; `details` and
`diagnostic` are added to the issue only when truthy (non-empty). -/
def Bundle.fill_error (_ : Bundle) (severity code : String)
    (details diagnostic : Option String) : Bundle :=
  { resource_type := "OperationOutcome", total := none, entry := none, tag := none,
    issue := some
      { severity := severity, code := code,
        details := details.bind (fun d => if d = "" then none else some d),
        diagnostic := diagnostic.bind (fun d => if d = "" then none else some d) } }

/-- The raw multi-valued query-parameter map handed to
`SearchArguments.parse` / `comprehensive_search` (an `ImmutableMultiDict`
already converted by `url_to_dict` into key → list-of-values, in order). -/
abbrev UrlArgs := List (String × List String)

/-- A value of the pre-processed parameter dictionary: ordinary keys map to
lists of strings, the synthetic `"multiple"` key maps to an inner dict. -/
inductive StrVal where
  | vals (l : List String)
  | mdict (m : List (String × List String))
deriving DecidableEq, Repr

/-- The pre-processed parameter dictionary (insertion-ordered). -/
abbrev StrArgs := List (String × StrVal)

/-- The `dict.get(key)`. -/
def lookupS (args : StrArgs) (key : String) : Option StrVal :=
  (args.find? (fun p => p.1 = key)).map (fun p => p.2)

/-- The `dict[key] = v`: replace in place when present, else insert at the end. -/
def setKeyS (args : StrArgs) (key : String) (v : StrVal) : StrArgs :=
  if (args.find? (fun p => p.1 = key)).isSome then
    args.map (fun p => if p.1 = key then (key, v) else p)
  else args ++ [(key, v)]

/-- The `dict.pop(key, None)`. -/
def removeKeyS (args : StrArgs) (key : String) : StrArgs :=
  args.filter (fun p => !(p.1 == key))

/-- The `defaultdict(list); d[key].append(v)`; `none` models the
`AttributeError` of appending to a non-list value. -/
def appendToKeyS (args : StrArgs) (key : String) (v : String) : Option StrArgs :=
  match lookupS args key with
  | none => some (args ++ [(key, .vals [v])])
  | some (.vals l) =>
    some (args.map (fun p => if p.1 = key then (key, StrVal.vals (l ++ [v])) else p))
  | some (.mdict _) => none

/-- The `dict[key] = v` on a plain key → list-of-strings dict. -/
def setKeyL (d : UrlArgs) (key : String) (v : List String) : UrlArgs :=
  if (d.find? (fun p => p.1 = key)).isSome then
    d.map (fun p => if p.1 = key then (key, v) else p)
  else d ++ [(key, v)]

/-- The `parse_comma(key, value)` of `searcharguments.py`. -/
def parse_comma (key : String) (value : String) : String × StrVal :=
  if value.data.contains ',' then
    ("multiple", .mdict [(key, (splitOnChar ',' value.data).map (fun l => (⟨l⟩ : String)))])
  else (key, .vals [value])

/-- The `pre_process_params(url_args)` of `searcharguments.py`. `none` models the
`AttributeError` of `processed_params[k].append` hitting the dict stored
under `"multiple"`. -/
def pre_process_params (url_args : UrlArgs) : Option StrArgs :=
  url_args.foldlM
    (fun (acc : StrArgs) kv =>
      match kv.2 with
      | [v] =>
        let p := parse_comma kv.1 v
        some (setKeyS acc p.1 p.2)
      | value =>
        value.foldlM
          (fun (acc2 : StrArgs) element =>
            let p := parse_comma kv.1 element
            if p.1 = "multiple" then some (setKeyS acc2 "multiple" p.2)
            else appendToKeyS acc2 kv.1 element)
          acc)
    []

/-- The `ReverseChain` object of `searcharguments.py`. -/
structure ReverseChain where
  is_queried : Bool
  resources_type : List String
  references : List String
  fields : List String
  value : List String
  has_args : List UrlArgs
deriving DecidableEq, Repr

/-- The `ReverseChain.__init__`. -/
def ReverseChain.init : ReverseChain :=
  { is_queried := false, resources_type := [], references := [], fields := [],
    value := [], has_args := [] }

/-- The `ReverseChain.parse(key, value)`. `none` models the uncaught `IndexError`
on a `_has:` key with too few `:`-separated segments. -/
def ReverseChain.parse (rc : ReverseChain) (key : String) (value : List String) :
    Option ReverseChain :=
  if "_has:".data.isPrefixOf key.data then do
    let elems := (splitOnChar ':' key.data).map (fun l => (⟨l⟩ : String))
    let e1 ← elems.get? 1
    let e2 ← elems.get? 2
    let e3 ← elems.get? 3
    let rc1 := { rc with is_queried := true,
                         value := value,
                         resources_type := rc.resources_type ++ [e1],
                         references := rc.references ++ [e2] }
    if e3 = "_has" then do
      let e4 ← elems.get? 4
      let e5 ← elems.get? 5
      let e6 ← elems.get? 6
      pure { rc1 with resources_type := rc1.resources_type ++ [e4],
                      references := rc1.references ++ [e5],
                      fields := rc1.fields ++ [e6] }
    else pure { rc1 with fields := rc1.fields ++ [e3] }
  else pure { rc with is_queried := false }

/-- The `ReverseChain.format()`. `none` models the uncaught `IndexError` when a
nested `_has:...:_has:...` key left `fields` with a single element but
`resources_type` with two. -/
def ReverseChain.format (rc : ReverseChain) : Option ReverseChain :=
  if rc.is_queried then
    if rc.resources_type.length = 1 then do
      let r0 ← rc.references.get? 0
      let f0 ← rc.fields.get? 0
      pure { rc with has_args := [setKeyL [("_elements", [r0 ++ ".reference"])] f0 rc.value] }
    else do
      let r1 ← rc.references.get? 1
      let f1 ← rc.fields.get? 1
      let r0 ← rc.references.get? 0
      let f0 ← rc.fields.get? 0
      pure { rc with has_args :=
        [setKeyL [("_elements", [r1 ++ ".reference"])] f1 rc.value,
         setKeyL [("_elements", [r0 ++ ".reference"])] f0 []] }
  else pure rc

/-- One `_sort` entry: a leading `-` flips the order (with `_score` treated
specially). -/
def sortItemOf (a : String) : SortItem :=
  match a.data with
  | '-' :: rest =>
    if (⟨rest⟩ : String) = "_score" then .ordered "_score" "asc"
    else .ordered (⟨rest⟩ : String) "desc"
  | _ => .plain a

/-- The `SearchArguments.sort_params(args)`. The outer `Option` is an uncaught
`AttributeError` (`.get` on a list stored under `"multiple"`); the inner
`Option` is the returned value (`None` when no sort was requested). -/
def sort_params (args : StrArgs) : Option (Option (List SortItem)) :=
  match
    (match lookupS args "_sort" with
     | some (.vals l) => some (some l)
     | some (.mdict m) => some (some (m.map (fun p => p.1)))
     | none =>
       match lookupS args "multiple" with
       | some (.mdict m) => some ((m.find? (fun p => p.1 = "_sort")).map (fun p => p.2))
       | some (.vals _) => none
       | none => some none) with
  | none => none
  | some has_sort =>
    some (match has_sort with
          | some (x :: xs) => some ((x :: xs).map sortItemOf)
          | _ => none)

/-- The unanchored greedy `re.search(r"(.*):(.*)", s)` used on `_include`
values: split at the last colon (newline-free values). -/
def lastColonSplit : List Char → Option (List Char × List Char)
  | [] => none
  | c :: rest =>
    match lastColonSplit rest with
    | some (f, m) => some (c :: f, m)
    | none => if c == ':' then some ([], rest) else none

/-- The `SearchArguments.include_params(args)`. The outer `Option` is an uncaught
exception (`.group` on a failed match, indexing an empty list, `.get` on a
list); the inner `Option` is the returned value. -/
def include_params (args : StrArgs) : Option (Option (List String)) :=
  match lookupS args "_include" with
  | some (.vals (v :: _)) =>
    match lastColonSplit v.data with
    | some p => some (some [(⟨p.2⟩ : String)])
    | none => none
  | some (.vals []) => none
  | some (.mdict _) => none
  | none =>
    match lookupS args "multiple" with
    | some (.mdict m) =>
      match m.find? (fun p => p.1 = "_include") with
      | some p =>
        (p.2.mapM (fun e => (lastColonSplit e.data).map (fun q => (⟨q.2⟩ : String)))).map
          (fun l => some l)
      | none => some none
    | some (.vals l) => if l.contains "_include" then none else some none
    | none => some none

/-- The `SearchArguments.has_reverse_chain(args)`: iterates over a snapshot of
the keys, parsing, popping and formatting each `_has:` key. -/
def has_reverse_chain (args : StrArgs) : Option (ReverseChain × StrArgs) :=
  (args.map (fun p => p.1)).foldlM
    (fun (acc : ReverseChain × StrArgs) key =>
      if "_has:".data.isPrefixOf key.data then do
        let v ← match lookupS acc.2 key with
                | some (.vals l) => some l
                | _ => none
        let rc ← acc.1.parse key v
        let args2 := removeKeyS acc.2 key
        let rc2 ← rc.format
        pure (rc2, args2)
      else pure acc)
    (ReverseChain.init, args)

/-- The `SearchArguments.clean_params(args)`. `none` models the uncaught
`AttributeError` of popping from a list stored under `"multiple"`. -/
def clean_params (args : StrArgs) : Option StrArgs :=
  match
    (match lookupS args "multiple" with
     | some (.mdict m) =>
       some (setKeyS args "multiple"
         (.mdict (m.filter (fun p =>
           !(p.1 == "_elements" || p.1 == "_sort" || p.1 == "_include" || p.1 == "_type")))))
     | some (.vals _) => none
     | none => some args) with
  | none => none
  | some args1 =>
    let args2 := match lookupS args1 "multiple" with
      | some (.mdict []) => removeKeyS args1 "multiple"
      | _ => args1
    some (["_summary", "_elements", "_sort", "_include", "_count"].foldl removeKeyS args2)

/-- Python `int(s)` on a string: optional surrounding whitespace, optional
sign, one or more digits (underscore separators are not modelled). -/
def pyInt (s : String) : Option Int :=
  let ws := fun c => c == ' ' || c == '\t' || c == '\n' || c == '\r'
  let l := ((s.data.dropWhile ws).reverse.dropWhile ws).reverse
  let p : Int × List Char :=
    match l with
    | '-' :: rest => (-1, rest)
    | '+' :: rest => (1, rest)
    | _ => (1, l)
  if !p.2.isEmpty && p.2.all isDig then
    some (p.1 * ((p.2.foldl (fun acc c => acc * 10 + (c.toNat - '0'.toNat)) 0 : Nat) : Int))
  else none

/-- The `SearchArguments` object after `parse` ran: core args, formatting
args, `meta_args` (`offset`, `result_size`) and the reverse chain. -/
structure SearchArguments where
  resource_type : String
  core_args : StrArgs
  formatting_args : FormattingArgs
  offset : Int
  result_size : Int
  reverse_chain : ReverseChain
deriving DecidableEq, Repr

/-- The `SearchArguments.parse(url_args, resource_type)` of `searcharguments.py`,
mirroring its statement order (`none` models any uncaught exception on the
way). -/
def SearchArguments.parse (url_args : UrlArgs) (resource_type : String) :
    Option SearchArguments := do
  let args0 ← pre_process_params url_args
  let sort ← sort_params args0
  let (rc, args) ← has_reverse_chain args0
  let incl ← include_params args
  let result_size : Int ←
    match lookupS args "_count" with
    | some (.vals (v :: _)) => pyInt v
    | some (.vals []) => some 100
    | some (.mdict _) => none
    | none => some 100
  let summary : Bool :=
    match lookupS args "_summary" with
    | some (.vals l) => decide (l ≠ ["false"])
    | some (.mdict _) => true
    | none => false
  let is_summary_count : Bool ←
    match lookupS args "_summary" with
    | some (.vals (v :: _)) => some (decide (v = "count"))
    | some (.vals []) => none
    | some (.mdict _) => none
    | none => some false
  let elements : Option (List String) ←
    match lookupS args "_summary" with
    | some (.vals (v :: _)) =>
      if v = "text" then some (some ["text", "id", "meta"])
      else
        match lookupS args "_elements" with
        | some (.vals l) => some (some l)
        | some (.mdict _) => none
        | none =>
          match lookupS args "multiple" with
          | some (.mdict m) => some ((m.find? (fun p => p.1 = "_elements")).map (fun p => p.2))
          | some (.vals _) => none
          | none => some none
    | some (.vals []) => none
    | some (.mdict _) => none
    | none =>
      match lookupS args "_elements" with
      | some (.vals l) => some (some l)
      | some (.mdict _) => none
      | none =>
        match lookupS args "multiple" with
        | some (.mdict m) => some ((m.find? (fun p => p.1 = "_elements")).map (fun p => p.2))
        | some (.vals _) => none
        | none => some none
  let core_args ← clean_params args
  pure { resource_type := resource_type, core_args := core_args,
         formatting_args :=
           { incl := incl, is_summary_count := is_summary_count, summary := summary,
             elements := elements, sort := sort },
         offset := 0, result_size := result_size, reverse_chain := rc }

/-- Python's `.lower()` on the ASCII resource-type names, written as a
structural map so that it reduces definitionally. -/
def py_lower (s : String) : String := ⟨s.data.map Char.toLower⟩

/-- The body of an `es.search` call: `min_score`/`from`/`size` are present on
primary queries (the orchestrator's include lookups send only `query`), and
`sort`/`_source` only when the formatting args are truthy. -/
structure EsBody where
  hasMinScore : Bool
  fromOff : Option Int
  size : Option Int
  query : EsQuery
  sort : Option (List SortItem)
  source : Option (List String)
deriving DecidableEq, Repr

/-- One elasticsearch round trip issued by the store, with its index. -/
inductive EngineCall where
  | search (index : String) (body : EsBody)
  | count (index : String) (query : EsQuery)
deriving DecidableEq, Repr

/-- The elasticsearch client, abstracted as total response functions. -/
structure Engine where
  searchAt : String → EsBody → Hits
  countAt : String → EsQuery → Hits

/-- The `FHIRStore` state used by search: the bootstrapped resource names
(`validate_resource_type` checks membership) and the engine client. -/
structure FHIRStore where
  resources : List String
  es : Engine

/-- The pre-processed string args, viewed as core args for the query builder
(every value reaching `build_core_query` from a URL is a string). -/
def toCore (args : StrArgs) : CoreArgs :=
  args.map (fun p =>
    (p.1,
     match p.2 with
     | .vals l => CoreVal.vals (l.map SVal.str)
     | .mdict m => CoreVal.mdict (m.map (fun q => (q.1, q.2.map SVal.str)))))

/-- The `FHIRStore.search(search_args)` of `fhirstore.py`: validate the resource
type, compile the core query, then issue either a count or a paginated
search call and fill a fresh bundle. Returns the bundle together with the
engine calls issued; `none` models an uncaught exception
(`NotFoundError` for an unknown resource type included). -/
def FHIRStore.search (store : FHIRStore) (search_args : SearchArguments) :
    Option (Bundle × List EngineCall) := do
  if search_args.resource_type ∈ store.resources then
    let core_query ← build_core_query (toCore search_args.core_args)
    let index := "fhirstore." ++ py_lower search_args.resource_type
    if search_args.formatting_args.is_summary_count then
      let hits := store.es.countAt index core_query
      let b ← Bundle.init.fill hits search_args.formatting_args
      pure (b, [.count index core_query])
    else
      let body : EsBody :=
        { hasMinScore := true, fromOff := some search_args.offset,
          size := some search_args.result_size, query := core_query,
          sort := if truthyL search_args.formatting_args.sort then
                    search_args.formatting_args.sort else none,
          source := if truthyL search_args.formatting_args.elements then
                      search_args.formatting_args.elements else none }
      let hits := store.es.searchAt index body
      let b ← Bundle.init.fill hits search_args.formatting_args
      pure (b, [.search index body])
  else none

/-- The `"Type/id".split(sep="/", maxsplit=1)` when it yields two parts
(`none` = no `/`, where the Python unpacking/indexing raises). -/
def splitSlash1 : List Char → Option (List Char × List Char)
  | [] => none
  | '/' :: rest => some ([], rest)
  | c :: rest => (splitSlash1 rest).map (fun p => ((c :: p.1 : List Char), p.2))

/-- The `item["resource"][ref]["reference"].split(sep="/", maxsplit=1)[1]` for
each entry of a chained sub-result, collecting the referenced ids;
`none` models the uncaught `KeyError`/`IndexError`. -/
def collectIds (entries : List EntryItem) (ref : String) : Option (List String) :=
  entries.mapM (fun item => do
    let r ← item.resource.ref ref
    let p ← splitSlash1 r.data
    pure ((⟨p.2⟩ : String)))

/-- The `_has` block of `FHIRStore.comprehensive_search` (lines 331–375 of
`fhirstore.py`), entered when the reverse chain is queried. Returns either
the updated search args (`Sum.inl`, execution continues to the final query)
or the early-returned warning bundle (`Sum.inr`), plus the engine calls of
the chained sub-queries. -/
def FHIRStore.revchain_stage (store : FHIRStore) (sa0 : SearchArguments) :
    Option ((SearchArguments ⊕ Bundle) × List EngineCall) := do
  let rc := sa0.reverse_chain
  let (ha0, trace0) ←
    if rc.has_args.length = 2 then do
      let haOuter ← rc.has_args.get? 1
      let rtOuter ← rc.resources_type.get? 1
      let outerSA ← SearchArguments.parse haOuter rtOuter
      let (outerB, tOuter) ← store.search outerSA
      let entries ← outerB.entry
      let ref1 ← rc.references.get? 1
      let outer_ids ← collectIds entries ref1
      let ha0 ← rc.has_args.get? 0
      let f0 ← rc.fields.get? 0
      pure (setKeyL ha0 f0 outer_ids, tOuter)
    else if rc.has_args.length = 1 then do
      let ha0 ← rc.has_args.get? 0
      let f0 ← rc.fields.get? 0
      pure (setKeyL ha0 f0 rc.value, ([] : List EngineCall))
    else none
  let rt0 ← rc.resources_type.get? 0
  let innerSA ← SearchArguments.parse ha0 rt0
  let (innerB, tInner) ← store.search innerSA
  let entries ← innerB.entry
  let ref0 ← rc.references.get? 0
  let inner_ids ← collectIds entries ref0
  let sa1 := { sa0 with core_args := setKeyS sa0.core_args "id" (.vals inner_ids) }
  if inner_ids = [] then
    pure (.inr (Bundle.init.fill_error "warning" "not-found"
      (some ("No " ++ rt0 ++ " matching search criteria")) none), trace0 ++ tInner)
  else
    pure (.inl sa1, trace0 ++ tInner)

/-- The body an include lookup sends:
`{"query": {"simple_query_string": {"query": id, "fields": ["id"]}}}`. -/
def idLookupBody (included_id : String) : EsBody :=
  { hasMinScore := false, fromOff := none, size := none,
    query := .simpleQS included_id (some ["id"]) none, sort := none, source := none }

/-- The `_include` block of `FHIRStore.comprehensive_search` (lines 379–412
of `fhirstore.py`): loop over the match-mode entries and the include
attributes, overwriting `included_hits` with each secondary lookup's
response (a missing attribute is a caught, logged `KeyError`), then append
the hits of the last lookup once. `none` models the uncaught `ValueError`
of a reference without `/`. -/
def FHIRStore.include_stage (store : FHIRStore) (sa : SearchArguments) (bundle : Bundle) :
    Option (Bundle × List EngineCall) := do
  if truthyL sa.formatting_args.incl && !sa.formatting_args.is_summary_count then
    let entries ← bundle.entry
    let inclList := sa.formatting_args.incl.getD []
    let st ← entries.foldlM
      (fun (st : Hits × List EngineCall) item =>
        if item.mode = "include" then pure st
        else
          inclList.foldlM
            (fun (st2 : Hits × List EngineCall) attr =>
              match item.resource.ref attr with
              | none => pure st2
              | some r => do
                let p ← splitSlash1 r.data
                let included_resource : String := ⟨p.1⟩
                let included_id : String := ⟨p.2⟩
                let idx := "fhirstore." ++ py_lower included_resource
                let body := idLookupBody included_id
                pure (store.es.searchAt idx body, st2.2 ++ [EngineCall.search idx body]))
            st)
      ((Hits.empty, []) : Hits × List EngineCall)
    let bundle2 ← bundle.append st.1 sa.formatting_args
    pure (bundle2, st.2)
  else
    pure (bundle, [])

/-- The `FHIRStore.comprehensive_search(resource_type, args)` of `fhirstore.py`:
parse, resolve a queried reverse chain (possibly returning the warning
bundle early), run the primary search, then expand `_include`. The result
carries the full ordered list of engine calls issued. -/
def FHIRStore.comprehensive_search (store : FHIRStore) (resource_type : String)
    (args : UrlArgs) : Option (Bundle × List EngineCall) := do
  let sa0 ← SearchArguments.parse args resource_type
  let staged ←
    if sa0.reverse_chain.is_queried then store.revchain_stage sa0
    else pure ((.inl sa0 : SearchArguments ⊕ Bundle), ([] : List EngineCall))
  match staged with
  | (.inr earlyBundle, trace) => pure (earlyBundle, trace)
  | (.inl sa1, trace1) => do
    let (bundle, tMain) ← store.search sa1
    let (bundle2, tInc) ← store.include_stage sa1 bundle
    pure (bundle2, trace1 ++ tMain ++ tInc)

/-- Engine for the C4 counterexample: the outer (`AuditEvent`) stage finds
nothing, the inner (`Observation`) stage finds one resource referencing
`Patient/p1`, everything else is empty. -/
def engC4 : Engine :=
  { searchAt := fun idx _ =>
      if idx = "fhirstore.auditevent" then .results [] 0
      else if idx = "fhirstore.observation" then .results [⟨[("patient", "Patient/p1")]⟩] 1
      else .results [] 0,
    countAt := fun _ _ => .count 0 }

/-- Store for the C4 counterexample. -/
def storeC4 : FHIRStore := ⟨["Patient", "Observation", "AuditEvent"], engC4⟩

/-- Two `_has` parameters, which this code base treats as a two-hop chain
(its `ReverseChain` then has two hops in `has_args`). -/
def argsC4 : UrlArgs :=
  [("_has:Observation:patient:code", ["v1"]), ("_has:AuditEvent:entity:t", ["v2"])]

/-- First Observation of the C5 scenario, referencing `Patient/p1`. -/
def obs1C5 : Resource := ⟨[("subject", "Patient/p1")]⟩

/-- Second Observation of the C5 scenario, referencing `Patient/p2`. -/
def obs2C5 : Resource := ⟨[("subject", "Patient/p2")]⟩

/-- The resource the `p1` include lookup resolves to. -/
def pat1C5 : Resource := ⟨[("name", "P1")]⟩

/-- The resource the `p2` include lookup resolves to. -/
def pat2C5 : Resource := ⟨[("name", "P2")]⟩

/-- Engine for the C5 counterexample: the primary Observation search returns
two matches with distinct subjects, and each patient id lookup resolves to
its own resource. -/
def engC5 : Engine :=
  { searchAt := fun idx body =>
      if idx = "fhirstore.observation" then .results [obs1C5, obs2C5] 2
      else if body.query = .simpleQS "p1" (some ["id"]) none then .results [pat1C5] 1
      else if body.query = .simpleQS "p2" (some ["id"]) none then .results [pat2C5] 1
      else .empty,
    countAt := fun _ _ => .count 0 }

/-- Store for the C5 counterexample. -/
def storeC5 : FHIRStore := ⟨["Observation", "Patient"], engC5⟩

/-- The `_include=Observation:subject` query of the C5 scenario. -/
def argsC5 : UrlArgs := [("_include", ["Observation:subject"])]

/-- Engine answering every search with an empty page of reported total 7
and every count with 7. -/
def engC7 : Engine :=
  { searchAt := fun _ _ => .results [] 7, countAt := fun _ _ => .count 7 }

/-- Store for the C7 scenario. -/
def storeC7 : FHIRStore := ⟨["Patient"], engC7⟩

/-- Engine that finds nothing at all, for the C4 witness. -/
def engC4A : Engine :=
  { searchAt := fun _ _ => .results [] 0, countAt := fun _ _ => .count 0 }

/-- The leaf that the element compiler produces for a recognized prefix `p`
with numeric/date operand `r` on a plain field: `gt/lt/ge/le` become range
leaves with engine operators `gt/lt/gte/lte`, `eq` an exact match leaf and
`ne` a negated full-text leaf. -/
def prefixLeaf (key p r : String) : EsQuery :=
  if p = "gt" then .range key "gt" r
  else if p = "ge" then .range key "gte" r
  else if p = "lt" then .range key "lt" r
  else if p = "le" then .range key "lte" r
  else if p = "eq" then .matchQ key (.str r)
  else .simpleQS ("-" ++ r) (some [key]) none

/-- The outer sub-query body of the two-`_has` counterexample: its id
restriction was the empty list, which the parser drops, leaving an
unrestricted `match_all` query. -/
def outerBodyC4 : EsBody :=
  { hasMinScore := true, fromOff := some 0, size := some 100,
    query := .matchAll, sort := none, source := some ["patient.reference"] }

/-- The inner sub-query body of the two-`_has` counterexample. -/
def innerBodyC4two : EsBody :=
  { hasMinScore := true, fromOff := some 0, size := some 100,
    query := .simpleQS "\"v2\"" (some ["t"]) (some "PHRASE"),
    sort := none, source := some ["entity.reference"] }

/-- The final query body of the two-`_has` counterexample, restricted to the
single id collected by the inner stage. -/
def finalBodyC4 : EsBody :=
  { hasMinScore := true, fromOff := some 0, size := some 100,
    query := .simpleQS "\"p1\"" (some ["id"]) (some "PHRASE"),
    sort := none, source := none }

/-- The inner sub-query body of the one-hop `_has` chain
`_has:Observation:patient:code=8302-2`. -/
def innerBodyC4A : EsBody :=
  { hasMinScore := true, fromOff := some 0, size := some 100,
    query := .simpleQS "\"8302-2\"" (some ["code"]) (some "PHRASE"),
    sort := none, source := some ["patient.reference"] }

/-- The `SearchArguments` the one-hop chain's inner sub-query parses to. -/
def innerSAC4A : SearchArguments :=
  { resource_type := "Observation",
    core_args := [("code", .vals ["8302-2"])],
    formatting_args := { incl := none, is_summary_count := false, summary := false,
                         elements := some ["patient.reference"], sort := none },
    offset := 0, result_size := 100, reverse_chain := ReverseChain.init }

/-- The `SearchArguments` that `_has:Observation:patient:code=8302-2`
parses to on a `Patient` search. -/
def saC4A : SearchArguments :=
  { resource_type := "Patient", core_args := [],
    formatting_args := { incl := none, is_summary_count := false,
                         summary := false, elements := none, sort := none },
    offset := 0, result_size := 100,
    reverse_chain :=
      { is_queried := true, resources_type := ["Observation"],
        references := ["patient"], fields := ["code"], value := ["8302-2"],
        has_args := [[("_elements", ["patient.reference"]), ("code", ["8302-2"])]] } }

/-- The primary query body of an unrestricted `Observation` search with
`_include=Observation:subject`. -/
def primaryBodyC5 : EsBody :=
  { hasMinScore := true, fromOff := some 0, size := some 100,
    query := .matchAll, sort := none, source := none }

/-- The `SearchArguments` that `_include=Observation:subject` parses to. -/
def saC5 : SearchArguments :=
  { resource_type := "Observation", core_args := [],
    formatting_args := { incl := some ["subject"], is_summary_count := false,
                         summary := false, elements := none, sort := none },
    offset := 0, result_size := 100, reverse_chain := ReverseChain.init }

/-- The primary bundle of the `_include` scenario: two match entries whose
`subject` references point to the distinct patients `p1` and `p2`. -/
def bundlePC5 (n : Nat) : Bundle :=
  { resource_type := "Bundle", total := some (0 + n),
    entry := some [⟨obs1C5, "match"⟩, ⟨obs2C5, "match"⟩], tag := none, issue := none }

/-! Helper lemmas about ` check_prefix` and the numeric grammar. -/
theorem stripNl_of_no_newline {l : List Char} (h : l.contains '\n' = false) :
    stripNl l = some l := by
  unfold stripNl
  rw [h]
  rfl

theorem is_numeric_type_eq_core {r : String} (hn : r.data.contains '\n' = false) :
    is_numeric_type r = numericCore r.data := by
  unfold is_numeric_type
  rw [stripNl_of_no_newline hn]

theorem check_prefix_strip (a b : Char) (r : String) (hp : prefixPair a b = true)
    (hn : r.data.contains '\n' = false) (hnum : numericCore r.data = true) :
    check_prefix ((⟨[a, b]⟩ : String) ++ r) = (some ⟨[a, b]⟩, r) := by
  obtain ⟨d⟩ := r
  show check_prefix ⟨a :: b :: d⟩ = _
  unfold check_prefix
  simp only [hp, if_true]
  rw [stripNl_of_no_newline hn]
  simp only [hnum, if_true]

theorem beq_false_of_pred {p : Char → Bool} (c a : Char) (hpa : p a = true)
    (hpc : p c = false) : (a == c) = false := by
  cases heq : a == c
  · rfl
  · rw [beq_iff_eq] at heq
    subst heq
    rw [hpa] at hpc
    cases hpc

theorem pp_first_false (a : Char) (hn : (a == 'n') = false) (he : (a == 'e') = false)
    (hg : (a == 'g') = false) (hl : (a == 'l') = false) (b : Char) :
    prefixPair a b = false := by
  unfold prefixPair
  rw [hn, he, hg, hl]
  simp

theorem numIntFrac_head (a : Char) (l : List Char) (h : numIntFrac (a :: l) = true) :
    isNZ a = true ∨ a = '0' := by
  unfold numIntFrac at h
  split at h
  · rename_i heq
    cases heq
  · rename_i heq
    injection heq with h1 h2
    right; exact h1
  · rename_i heq
    injection heq with h1 h2
    subst h1
    simp only [Bool.and_eq_true] at h
    left; exact h.1

theorem numericCore_head (a : Char) (l : List Char) (h : numericCore (a :: l) = true) :
    isDig a = true ∨ isNZ a = true ∨ a = '0' ∨ a = '+' ∨ a = '-' := by
  unfold numericCore at h
  simp only [Bool.or_eq_true] at h
  rcases h with (h | h) | h
  · unfold numBranch1 at h
    split at h
    · rename_i heq
      injection heq with h1 h2
      right; right; left; exact h1
    · rename_i heq
      injection heq with h1 h2
      right; right; right; left; exact h1
    · rename_i heq
      injection heq with h1 h2
      right; right; right; right; exact h1
    · simp only [intTail, Bool.and_eq_true] at h
      right; left; exact h.1
  · unfold numBranch2 at h
    split at h
    · rename_i heq
      injection heq with h1 h2
      right; right; right; right; exact h1
    · rcases numIntFrac_head a l h with hd | hd
      · right; left; exact hd
      · right; right; left; exact hd
  · unfold numBranch3 at h
    split at h
    · rename_i heq
      injection heq with h1 h2
      subst h1
      simp only [Bool.and_eq_true] at h
      have hy := h.1
      unfold yearOk at hy
      simp only [Bool.or_eq_true, Bool.and_eq_true] at hy
      rcases hy with ⟨h1, _⟩ | ⟨⟨⟨h1, _⟩, _⟩, _⟩
      · left; exact h1
      · right; left; exact h1
    · cases h

theorem numeric_head_no_pp (a b : Char) (l : List Char)
    (h : numericCore (a :: l) = true) : prefixPair a b = false := by
  rcases numericCore_head a l h with hd | hd | rfl | rfl | rfl
  · exact pp_first_false a (beq_false_of_pred 'n' a hd (by decide))
      (beq_false_of_pred 'e' a hd (by decide)) (beq_false_of_pred 'g' a hd (by decide))
      (beq_false_of_pred 'l' a hd (by decide)) b
  · exact pp_first_false a (beq_false_of_pred 'n' a hd (by decide))
      (beq_false_of_pred 'e' a hd (by decide)) (beq_false_of_pred 'g' a hd (by decide))
      (beq_false_of_pred 'l' a hd (by decide)) b
  · exact pp_first_false '0' rfl rfl rfl rfl b
  · exact pp_first_false '+' rfl rfl rfl rfl b
  · exact pp_first_false '-' rfl rfl rfl rfl b

theorem check_prefix_of_numeric (r : String) (hn : r.data.contains '\n' = false)
    (hr : numericCore r.data = true) : check_prefix r = (none, r) := by
  obtain ⟨d⟩ := r
  dsimp only at hr
  match d, hr with
  | a :: b :: rest, hr =>
    show check_prefix ⟨a :: b :: rest⟩ = _
    unfold check_prefix
    dsimp only
    rw [numeric_head_no_pp a b (b :: rest) hr]
    rfl
  | [a], _ => rfl
  | [], _ => rfl

/-- C1: a single field with two or more raw string values compiles to the
`bool.must` (AND) of the per-value element leaves; the synthetic `multiple`
bucket over one field compiles to the `bool.should` (OR) of the per-value
element leaves; in particular the two `family = Donald, Chalmers` examples
produce the AND resp. OR of the two phrase leaves. -/
theorem C1_core_and_or :
    (∀ (k : String) (ss : List String) (qs : List EsQuery), ¬ k = "multiple" →
        2 ≤ ss.length →
        (ss.map SVal.str).mapM (build_element_query k) = some qs →
        build_core_query [(k, .vals (ss.map SVal.str))] = some (.boolMust qs)) ∧
    (∀ (k : String) (ss : List String) (qs : List EsQuery),
        (ss.map SVal.str).mapM (build_element_query k) = some qs →
        build_core_query [("multiple", .mdict [(k, ss.map SVal.str)])] =
          some (.boolShould qs)) ∧
    build_core_query [("family", .vals [.str "Donald", .str "Chalmers"])] =
      some (.boolMust [.simpleQS "\"Donald\"" (some ["family"]) (some "PHRASE"),
                       .simpleQS "\"Chalmers\"" (some ["family"]) (some "PHRASE")]) ∧
    build_core_query [("multiple", .mdict [("family", [.str "Donald", .str "Chalmers"])])] =
      some (.boolShould [.simpleQS "\"Donald\"" (some ["family"]) (some "PHRASE"),
                         .simpleQS "\"Chalmers\"" (some ["family"]) (some "PHRASE")]) := by
  refine ⟨?_, ?_, by decide, by decide⟩
  · intro k ss qs hk hlen hmap
    match ss, hlen with
    | a :: b :: rest, _ =>
      have hfind :
          lookupArg [(k, CoreVal.vals ((a :: b :: rest).map SVal.str))] "multiple" = none := by
        simp [lookupArg, List.find?, hk]
      unfold build_core_query build_simple_query
      rw [hfind]
      dsimp only [List.map]
      simp only [List.map] at hmap
      rw [hmap]
      rfl
  · intro k ss qs hmap
    show ((ss.map SVal.str).mapM (build_element_query k)).map
        (fun c => EsQuery.boolShould c) = _
    rw [hmap]
    rfl

/-- Witness for C1 at concrete inputs. -/
theorem C1_core_and_or_witness :
    build_core_query [("email", .vals [.str "a", .str "b"])] =
      some (.boolMust [.simpleQS "\"a\"" (some ["email"]) (some "PHRASE"),
                       .simpleQS "\"b\"" (some ["email"]) (some "PHRASE")]) ∧
    build_core_query [("multiple", .mdict [("email", [.str "a"])])] =
      some (.boolShould [.simpleQS "\"a\"" (some ["email"]) (some "PHRASE")]) :=
  ⟨C1_core_and_or.1 "email" ["a", "b"] _ (by decide) (by decide) (by decide),
   C1_core_and_or.2.1 "email" ["a"] _ (by decide)⟩

/-- C2 counterexample: `sa2015` starts with the ordering prefix `sa` and its
remainder `2015` matches the numeric/date grammar, yet the element compiler
emits a literal phrase leaf for the whole string `sa2015` (the code only
recognizes `ne|eq|gt|lt|ge|le`; `sa`, `eb`, `ap` are an unhandled TODO). -/
theorem C2_sa_prefix_literal_phrase :
    is_numeric_type "2015" = true ∧
    build_element_query "date" (.str "sa2015") =
      some (.simpleQS "\"sa2015\"" (some ["date"]) (some "PHRASE")) := by decide

/-- C2 amended: only the six prefixes `ne|eq|gt|lt|ge|le` are recognized.
First conjunct: for such a prefix with a remainder matching the numeric/date
grammar, on a field without string modifier that is not `_text`/`_content`,
the compiler strips the prefix and maps `gt/lt/ge/le` to range leaves with
engine operators `gt/lt/gte/lte`, `eq` to an exact match leaf and `ne` to a
negated full-text leaf. Second conjunct: on such a field, every value
starting with `sa`, `eb` or `ap` with a pipe-free remainder keeps its prefix
and compiles to a literal phrase leaf over the whole value, even when the
remainder matches the grammar. -/
theorem C2_recognized_prefix_dispatch :
    (∀ (key p r : String), p ∈ ["ne", "eq", "gt", "lt", "ge", "le"] →
      is_numeric_type r = true → r.data.contains '\n' = false →
      stringModif key = none → ¬ key = "_text" → ¬ key = "_content" →
      build_element_query key (.str (p ++ r)) = some (prefixLeaf key p r)) ∧
    (∀ (key p r : String), p ∈ ["sa", "eb", "ap"] →
      is_numeric_type r = true → r.data.contains '|' = false →
      stringModif key = none → ¬ key = "_text" → ¬ key = "_content" →
      build_element_query key (.str (p ++ r)) =
        some (.simpleQS ("\"" ++ (p ++ r) ++ "\"") (some [key]) (some "PHRASE"))) := by
  constructor
  · intro key p r hp hr hn hm ht hc
    have hnum : numericCore r.data = true := by
      rw [is_numeric_type_eq_core hn] at hr
      exact hr
    simp only [List.mem_cons, List.not_mem_nil, or_false] at hp
    have main : ∀ a b : Char, prefixPair a b = true →
        ((⟨[a, b]⟩ : String) = p) →
        build_element_query key (.str (p ++ r)) =
          (match (number_prefix_matching.find? (fun q => q.1 = p)) with
           | some q => some (.range key q.2 r)
           | none =>
             if p = "eq" then some (.matchQ key (.str r))
             else some (.simpleQS ("-" ++ r) (some [key]) none)) := by
      intro a b hab hps
      subst hps
      have hcp := check_prefix_strip a b r hab hn hnum
      unfold build_element_query
      dsimp only
      rw [hcp]
      simp [ht, hc, hm]
    rcases hp with rfl | rfl | rfl | rfl | rfl | rfl
    · rw [main 'n' 'e' (by decide) rfl]; rfl
    · rw [main 'e' 'q' (by decide) rfl]; rfl
    · rw [main 'g' 't' (by decide) rfl]; rfl
    · rw [main 'l' 't' (by decide) rfl]; rfl
    · rw [main 'g' 'e' (by decide) rfl]; rfl
    · rw [main 'l' 'e' (by decide) rfl]; rfl
  · intro key p r hp hr hpipe hm ht hc
    simp only [List.mem_cons, List.not_mem_nil, or_false] at hp
    rcases hp with rfl | rfl | rfl
    · obtain ⟨d⟩ := r
      have hmem : ¬ '|' ∈ d := by simpa using hpipe
      have hcp : check_prefix ("sa" ++ (⟨d⟩ : String)) =
          (none, "sa" ++ (⟨d⟩ : String)) := rfl
      unfold build_element_query
      dsimp only
      rw [hcp]
      simp [ht, hc, hm, hmem]
    · obtain ⟨d⟩ := r
      have hmem : ¬ '|' ∈ d := by simpa using hpipe
      have hcp : check_prefix ("eb" ++ (⟨d⟩ : String)) =
          (none, "eb" ++ (⟨d⟩ : String)) := rfl
      unfold build_element_query
      dsimp only
      rw [hcp]
      simp [ht, hc, hm, hmem]
    · obtain ⟨d⟩ := r
      have hmem : ¬ '|' ∈ d := by simpa using hpipe
      have hcp : check_prefix ("ap" ++ (⟨d⟩ : String)) =
          (none, "ap" ++ (⟨d⟩ : String)) := rfl
      unfold build_element_query
      dsimp only
      rw [hcp]
      simp [ht, hc, hm, hmem]

/-- Witness for C2 amended: the recognized-prefix dispatch at the spec's own
example `gt1974-12-25`, and the unrecognized-prefix phrase fallback at
`sa2015`. -/
theorem C2_recognized_prefix_dispatch_witness :
    (build_element_query "birthDate" (.str ("gt" ++ "1974-12-25")) =
      some (.range "birthDate" "gt" "1974-12-25")) ∧
    (build_element_query "date" (.str ("sa" ++ "2015")) =
      some (.simpleQS ("\"" ++ ("sa" ++ "2015") ++ "\"") (some ["date"])
        (some "PHRASE"))) := by
  constructor
  · have h := C2_recognized_prefix_dispatch.1 "birthDate" "gt" "1974-12-25"
      (by decide) (by decide) (by decide) (by decide) (by decide) (by decide)
    rw [h]
    rfl
  · exact C2_recognized_prefix_dispatch.2 "date" "sa" "2015"
      (by decide) (by decide) (by decide) (by decide) (by decide) (by decide)

/-- C3: `le1974-12-25` splits into prefix `le` and remainder `1974-12-25`;
`eqpatient` is returned unchanged because `patient` fails the numeric/date
grammar; and in general, whenever the remainder after the two-character
prefix fails the grammar, no prefix is stripped and the whole original
string is retained. -/
theorem C3_check_prefix_retention :
    check_prefix "le1974-12-25" = (some "le", "1974-12-25") ∧
    check_prefix "eqpatient" = (none, "eqpatient") ∧
    ∀ v : String, is_numeric_type (⟨v.data.drop 2⟩ : String) = false →
      check_prefix v = (none, v) := by
  refine ⟨by decide, by decide, ?_⟩
  intro v h
  obtain ⟨d⟩ := v
  dsimp only at h
  match d, h with
  | [], _ => rfl
  | [a], _ => rfl
  | a :: b :: rest, h =>
    show check_prefix ⟨a :: b :: rest⟩ = _
    unfold check_prefix
    dsimp only
    cases hab : prefixPair a b
    · rfl
    · rw [if_pos rfl]
      unfold is_numeric_type at h
      dsimp only [List.drop] at h
      cases hs : stripNl rest
      · rfl
      · rename_i rest2
        rw [hs] at h
        dsimp only at h
        dsimp only
        rw [h]
        rfl

/-- Witness for C3's general clause: a prefix followed by a non-numeric,
non-date remainder is left in place. -/
theorem C3_check_prefix_retention_witness :
    check_prefix "gtpatient" = (none, "gtpatient") :=
  C3_check_prefix_retention.2.2 "gtpatient" (by decide)

/-- C10: a recognized prefix with numeric/date remainder is stripped even
when the field carries a string modifier, so the modifier branch compiles
the bare remainder and the prefix is silently discarded; in particular
`date:exact` with `le2000` becomes an exact-phrase query for `2000`. -/
theorem C10_modifier_discards_stripped_prefix :
    build_element_query "date:exact" (.str "le2000") =
      some (.simpleQS "\"2000\"" (some ["date"]) (some "PHRASE")) ∧
    ∀ (key f m p r : String), stringModif key = some (f, m) →
      p ∈ ["ne", "eq", "gt", "lt", "ge", "le"] → is_numeric_type r = true →
      r.data.contains '\n' = false → ¬ key = "_text" → ¬ key = "_content" →
      build_element_query key (.str (p ++ r)) = build_element_query key (.str r) := by
  refine ⟨by decide, ?_⟩
  intro key f m p r hm hp hr hn ht hc
  have hnum : numericCore r.data = true := by
    rw [is_numeric_type_eq_core hn] at hr
    exact hr
  have hcpR := check_prefix_of_numeric r hn hnum
  simp only [List.mem_cons, List.not_mem_nil, or_false] at hp
  have main : ∀ a b : Char, prefixPair a b = true → ((⟨[a, b]⟩ : String) = p) →
      build_element_query key (.str (p ++ r)) = build_element_query key (.str r) := by
    intro a b hab hps
    subst hps
    have hcp := check_prefix_strip a b r hab hn hnum
    unfold build_element_query
    dsimp only
    rw [hcp, hcpR]
    simp [ht, hc, hm]
  rcases hp with rfl | rfl | rfl | rfl | rfl | rfl
  · exact main 'n' 'e' (by decide) rfl
  · exact main 'e' 'q' (by decide) rfl
  · exact main 'g' 't' (by decide) rfl
  · exact main 'l' 't' (by decide) rfl
  · exact main 'g' 'e' (by decide) rfl
  · exact main 'l' 'e' (by decide) rfl

/-- Witness for the general clause of C10 at a concrete modifier field. -/
theorem C10_modifier_discards_stripped_prefix_witness :
    build_element_query "name:contains" (.str ("lt" ++ "5")) =
      build_element_query "name:contains" (.str "5") :=
  C10_modifier_discards_stripped_prefix.2 "name:contains" "name" "contains" "lt" "5"
    (by decide) (by decide) (by decide) (by decide) (by decide) (by decide)

/-- C6 counterexample: count-mode `fill` on a fresh bundle also sets the
`SUBSETTED` tag and pops the `entry` key, so it does not mutate only
`total` (the envelope's `entry` was present and its `tag` absent before). -/
theorem C6_count_fill_not_only_total :
    Bundle.init.fill (Hits.count 5)
        { incl := none, is_summary_count := true, summary := false,
          elements := none, sort := none } =
      some { resource_type := "Bundle", total := some 5, entry := none,
             tag := some "SUBSETTED", issue := none } ∧
    Bundle.init.entry = some [] ∧ Bundle.init.tag = none := by decide

/-- The trailing `SUBSETTED`-tag step of `fill` touches only the `tag`
field. -/
theorem tagIf_preserves (fa : FormattingArgs) (b : Bundle) :
    ((if truthyL fa.elements || fa.summary then { b with tag := some "SUBSETTED" }
      else b).total = b.total) ∧
    ((if truthyL fa.elements || fa.summary then { b with tag := some "SUBSETTED" }
      else b).entry = b.entry) ∧
    ((if truthyL fa.elements || fa.summary then { b with tag := some "SUBSETTED" }
      else b).resource_type = b.resource_type) := by
  by_cases h : (truthyL fa.elements || fa.summary) = true
  · rw [if_pos h]; exact ⟨rfl, rfl, rfl⟩
  · rw [if_neg h]; exact ⟨rfl, rfl, rfl⟩

/-- C6 amended: count-mode `fill` adds the reported count to `total`, sets
the `SUBSETTED` tag and removes the `entry` list (leaving `resource_type`
and `issue` unchanged); entry-mode `fill` of a fresh bundle reports the
engine total, which is independent of the number of appended entries and
may therefore exceed it under pagination. -/
theorem C6_fill_total_semantics :
    (∀ (b : Bundle) (n : Nat) (fa : FormattingArgs) (e : List EntryItem) (t : Nat),
        fa.is_summary_count = true → b.entry = some e → b.total = some t →
        b.fill (Hits.count n) fa =
          some { b with tag := some "SUBSETTED", entry := none, total := some (t + n) }) ∧
    (∀ (l : List Resource) (t : Nat) (fa : FormattingArgs),
        fa.is_summary_count = false →
        ∃ b', Bundle.init.fill (Hits.results l t) fa = some b' ∧
          b'.total = some t ∧
          b'.entry = some (l.map (fun h => EntryItem.mk h "match"))) := by
  constructor
  · intro b n fa e t hsc hent htot
    unfold Bundle.fill
    rw [hsc, if_pos rfl, hent]
    dsimp only
    rw [htot]
    dsimp only
    cases hcond : (truthyL fa.elements || fa.summary) <;> rfl
  · intro l t fa hsc
    unfold Bundle.fill
    rw [hsc, if_neg (by simp)]
    cases l with
    | nil =>
      dsimp only [Bundle.init, Option.map]
      by_cases hcond : (truthyL fa.elements || fa.summary) = true
      · rw [if_pos hcond]
        exact ⟨_, rfl, by simp, rfl⟩
      · rw [if_neg hcond]
        exact ⟨_, rfl, by simp, rfl⟩
    | cons a rest =>
      dsimp only [Bundle.init, Option.map]
      by_cases hcond : (truthyL fa.elements || fa.summary) = true
      · rw [if_pos hcond]
        exact ⟨_, rfl, by simp, rfl⟩
      · rw [if_neg hcond]
        exact ⟨_, rfl, by simp, rfl⟩

/-- Witness for C6 amended at concrete inputs (entry-mode total 5 with a
single entry, exceeding the page length). -/
theorem C6_fill_total_semantics_witness :
    (Bundle.init.fill (Hits.count 3)
        { incl := none, is_summary_count := true, summary := false,
          elements := none, sort := none } =
      some { resource_type := "Bundle", total := some 3, entry := none,
             tag := some "SUBSETTED", issue := none }) ∧
    ∃ b', Bundle.init.fill (Hits.results [⟨[]⟩] 5)
        { incl := none, is_summary_count := false, summary := false,
          elements := none, sort := none } = some b' ∧
      b'.total = some 5 ∧ b'.entry = some [⟨⟨[]⟩, "match"⟩] := by
  constructor
  · exact C6_fill_total_semantics.1 Bundle.init 3 _ [] 0 rfl rfl rfl
  · exact C6_fill_total_semantics.2 [⟨[]⟩] 5 _ rfl

/-- C8: every entry `append` adds carries search mode `include` and `total`
(and the resource type) is untouched, and when no `_include` was requested
`append` is a no-op whatever hits are passed. -/
theorem C8_append_include_mode_only :
    (∀ (b : Bundle) (hits : Hits) (fa : FormattingArgs) (b' : Bundle),
        b.append hits fa = some b' →
        b'.total = b.total ∧ b'.resource_type = b.resource_type) ∧
    (∀ (b : Bundle) (hits : Hits) (fa : FormattingArgs) (b' : Bundle)
        (e e' : List EntryItem),
        b.append hits fa = some b' → b.entry = some e → b'.entry = some e' →
        ∃ new, e' = e ++ new ∧ ∀ x ∈ new, x.mode = "include") ∧
    (∀ (b : Bundle) (hits : Hits) (fa : FormattingArgs),
        truthyL fa.incl = false → b.append hits fa = some b) := by
  refine ⟨?_, ?_, ?_⟩
  · intro b hits fa b' happ
    cases hits with
    | empty =>
      simp [Bundle.append] at happ
      rw [← happ]
      exact ⟨rfl, rfl⟩
    | count n =>
      simp [Bundle.append] at happ
      rw [← happ]
      exact ⟨rfl, rfl⟩
    | results l t =>
      cases hincl : truthyL fa.incl with
      | false =>
        simp [Bundle.append, hincl] at happ
        rw [← happ]
        exact ⟨rfl, rfl⟩
      | true =>
        cases l with
        | nil =>
          simp [Bundle.append, hincl] at happ
          rw [← happ]
          exact ⟨rfl, rfl⟩
        | cons x xs =>
          cases hent2 : b.entry with
          | none =>
            simp [Bundle.append, hincl, hent2] at happ
          | some e0 =>
            simp [Bundle.append, hincl, hent2] at happ
            rw [← happ]
            exact ⟨rfl, rfl⟩
  · intro b hits fa b' e e' happ hent hent'
    cases hits with
    | empty =>
      simp [Bundle.append] at happ
      subst happ
      have h2 := hent.symm.trans hent'
      injection h2 with h2
      exact ⟨[], by simp [h2], by simp⟩
    | count n =>
      simp [Bundle.append] at happ
      subst happ
      have h2 := hent.symm.trans hent'
      injection h2 with h2
      exact ⟨[], by simp [h2], by simp⟩
    | results l t =>
      cases hincl : truthyL fa.incl with
      | false =>
        simp [Bundle.append, hincl] at happ
        subst happ
        have h2 := hent.symm.trans hent'
        injection h2 with h2
        exact ⟨[], by simp [h2], by simp⟩
      | true =>
        cases l with
        | nil =>
          simp [Bundle.append, hincl] at happ
          subst happ
          have h2 := hent.symm.trans hent'
          injection h2 with h2
          exact ⟨[], by simp [h2], by simp⟩
        | cons x xs =>
          simp [Bundle.append, hincl, hent] at happ
          rw [← happ] at hent'
          simp only [Option.some.injEq] at hent'
          refine ⟨(x :: xs).map (fun h => EntryItem.mk h "include"), ?_, ?_⟩
          · rw [← hent']
            simp
          · intro y hy
            simp only [List.mem_map] at hy
            obtain ⟨z, _, rfl⟩ := hy
            rfl
  · intro b hits fa hincl
    unfold Bundle.append
    rw [hincl]
    simp

/-- Witness for C8 at concrete inputs. -/
theorem C8_append_include_mode_only_witness :
    (({ resource_type := "Bundle", total := some 0,
        entry := some [⟨⟨[]⟩, "include"⟩], tag := none, issue := none } : Bundle).total
      = Bundle.init.total) ∧
    Bundle.init.append (Hits.results [⟨[]⟩] 1)
        { incl := none, is_summary_count := false, summary := false,
          elements := none, sort := none } = some Bundle.init :=
  ⟨(C8_append_include_mode_only.1 Bundle.init (Hits.results [⟨[]⟩] 1)
      { incl := some ["subject"], is_summary_count := false, summary := false,
        elements := none, sort := none } _ (by decide)).1,
   C8_append_include_mode_only.2.2 Bundle.init (Hits.results [⟨[]⟩] 1) _ rfl⟩

/-- C9: `fill_error` is absorbing — its result does not depend on the prior
envelope state at all — and always yields an `OperationOutcome` carrying the
given severity and code with `total`, `entry` and `tag` discarded. -/
theorem C9_fill_error_absorbing :
    ∀ (b1 b2 : Bundle) (sev code : String) (det diag : Option String),
      b1.fill_error sev code det diag = b2.fill_error sev code det diag ∧
      (b1.fill_error sev code det diag).resource_type = "OperationOutcome" ∧
      (b1.fill_error sev code det diag).total = none ∧
      (b1.fill_error sev code det diag).entry = none ∧
      (b1.fill_error sev code det diag).tag = none ∧
      ∃ iss, (b1.fill_error sev code det diag).issue = some iss ∧
        iss.severity = sev ∧ iss.code = code := by
  intro b1 b2 sev code det diag
  exact ⟨rfl, rfl, rfl, rfl, rfl, ⟨_, rfl, rfl, rfl⟩⟩

/-- C4 counterexample: with two `_has` parameters (a two-hop chain), the
outer sub-query returns zero hits — zero referenced ids — yet the
orchestrator does not short-circuit: it issues the inner query and the
final query against the target type, returning an ordinary `Bundle` rather
than an `OperationOutcome` warning envelope. -/
theorem C4_outer_zero_final_query_issued :
    engC4.searchAt "fhirstore.auditevent" outerBodyC4 = Hits.results [] 0 ∧
    FHIRStore.comprehensive_search storeC4 "Patient" argsC4 =
      some ({ resource_type := "Bundle", total := some 0, entry := some [],
              tag := none, issue := none },
            [EngineCall.search "fhirstore.auditevent" outerBodyC4,
             EngineCall.search "fhirstore.observation" innerBodyC4two,
             EngineCall.search "fhirstore.patient" finalBodyC4]) :=
  ⟨rfl, rfl⟩

/-- C4 amended: the short-circuit that does exist — whenever the inner
sub-query of a `_has` chain contributes zero entries (hence zero referenced
ids), the orchestrator returns the `OperationOutcome` envelope with
severity `warning` and code `not-found` without issuing the final query:
the trace contains only the inner sub-query. -/
theorem C4_inner_empty_short_circuit :
    ∀ (eng : Engine) (n : Nat),
      eng.searchAt "fhirstore.observation" innerBodyC4A = Hits.results [] n →
      FHIRStore.comprehensive_search ⟨["Patient", "Observation"], eng⟩ "Patient"
          [("_has:Observation:patient:code", ["8302-2"])] =
        some (Bundle.init.fill_error "warning" "not-found"
                (some "No Observation matching search criteria") none,
              [EngineCall.search "fhirstore.observation" innerBodyC4A]) := by
  intro eng n h
  have e1 : FHIRStore.search ⟨["Patient", "Observation"], eng⟩ innerSAC4A =
      Option.bind
        (Bundle.init.fill (eng.searchAt "fhirstore.observation" innerBodyC4A)
          innerSAC4A.formatting_args)
        (fun b => some (b, [EngineCall.search "fhirstore.observation" innerBodyC4A])) := rfl
  rw [h] at e1
  have e2 : FHIRStore.search ⟨["Patient", "Observation"], eng⟩ innerSAC4A =
      some ({ resource_type := "Bundle", total := some (0 + n), entry := some [],
              tag := some "SUBSETTED", issue := none },
            [EngineCall.search "fhirstore.observation" innerBodyC4A]) := by
    rw [e1]
    rfl
  have e3 : FHIRStore.revchain_stage ⟨["Patient", "Observation"], eng⟩ saC4A =
      (do
        let (innerB, tInner) ← FHIRStore.search ⟨["Patient", "Observation"], eng⟩ innerSAC4A
        let entries ← innerB.entry
        let inner_ids ← collectIds entries "patient"
        let sa1 := { saC4A with
                     core_args := setKeyS saC4A.core_args "id" (.vals inner_ids) }
        if inner_ids = [] then
          pure (.inr (Bundle.init.fill_error "warning" "not-found"
            (some ("No " ++ "Observation" ++ " matching search criteria")) none),
            [] ++ tInner)
        else
          pure (.inl sa1, [] ++ tInner)) := rfl
  rw [e2] at e3
  have e4 : FHIRStore.revchain_stage ⟨["Patient", "Observation"], eng⟩ saC4A =
      some (.inr (Bundle.init.fill_error "warning" "not-found"
              (some "No Observation matching search criteria") none),
            [EngineCall.search "fhirstore.observation" innerBodyC4A]) := by
    rw [e3]
    rfl
  have e5 : FHIRStore.comprehensive_search ⟨["Patient", "Observation"], eng⟩ "Patient"
        [("_has:Observation:patient:code", ["8302-2"])] =
      (do
        let staged ← FHIRStore.revchain_stage ⟨["Patient", "Observation"], eng⟩ saC4A
        match staged with
        | (.inr earlyBundle, trace) => pure (earlyBundle, trace)
        | (.inl sa1, trace1) => do
          let (bundle, tMain) ← FHIRStore.search ⟨["Patient", "Observation"], eng⟩ sa1
          let (bundle2, tInc) ←
            FHIRStore.include_stage ⟨["Patient", "Observation"], eng⟩ sa1 bundle
          pure (bundle2, trace1 ++ tMain ++ tInc)) := rfl
  rw [e4] at e5
  rw [e5]
  rfl

/-- Witness for C4 amended, at an engine that returns no hits at all. -/
theorem C4_inner_empty_short_circuit_witness :
    FHIRStore.comprehensive_search ⟨["Patient", "Observation"], engC4A⟩ "Patient"
        [("_has:Observation:patient:code", ["8302-2"])] =
      some (Bundle.init.fill_error "warning" "not-found"
              (some "No Observation matching search criteria") none,
            [EngineCall.search "fhirstore.observation" innerBodyC4A]) :=
  C4_inner_empty_short_circuit engC4A 0 rfl

/-- C5 counterexample: two Observations with distinct subject references
`Patient/p1` and `Patient/p2`; a secondary lookup is issued for each, but
`append` runs once after the loop, so only the hits of the *last* lookup
(`p2`) are appended — one include entry instead of one per distinct
reference, and `p1`'s resource is missing from the bundle. -/
theorem C5_include_appends_only_last :
    FHIRStore.comprehensive_search storeC5 "Observation" argsC5 =
      some ({ resource_type := "Bundle", total := some 2,
              entry := some [⟨obs1C5, "match"⟩, ⟨obs2C5, "match"⟩, ⟨pat2C5, "include"⟩],
              tag := none, issue := none },
            [EngineCall.search "fhirstore.observation" primaryBodyC5,
             EngineCall.search "fhirstore.patient" (idLookupBody "p1"),
             EngineCall.search "fhirstore.patient" (idLookupBody "p2")]) ∧
    ([⟨obs1C5, "match"⟩, ⟨obs2C5, "match"⟩, (⟨pat2C5, "include"⟩ : EntryItem)].filter
        (fun e => e.mode == "include")).length = 1 :=
  ⟨rfl, rfl⟩

/-- C5 amended: the loop issues one secondary lookup per (match entry,
include attribute) reference, but `bundle.append` is called once after the
loop with the last response only: whatever the `p1` lookup returns is
discarded unread, and exactly the `p2` lookup's hits are appended as
include-mode entries. -/
theorem C5_only_last_lookup_appended :
    ∀ (eng : Engine) (n t2 : Nat) (l2 : List Resource),
      eng.searchAt "fhirstore.observation" primaryBodyC5 =
        Hits.results [obs1C5, obs2C5] n →
      eng.searchAt "fhirstore.patient" (idLookupBody "p2") = Hits.results l2 t2 →
      FHIRStore.comprehensive_search ⟨["Observation", "Patient"], eng⟩ "Observation"
          [("_include", ["Observation:subject"])] =
        some ({ resource_type := "Bundle", total := some n,
                entry := some ([⟨obs1C5, "match"⟩, ⟨obs2C5, "match"⟩] ++
                  l2.map (fun h => EntryItem.mk h "include")),
                tag := none, issue := none },
              [EngineCall.search "fhirstore.observation" primaryBodyC5,
               EngineCall.search "fhirstore.patient" (idLookupBody "p1"),
               EngineCall.search "fhirstore.patient" (idLookupBody "p2")]) := by
  intro eng n t2 l2 hprim hp2
  have e1 : FHIRStore.search ⟨["Observation", "Patient"], eng⟩ saC5 =
      Option.bind
        (Bundle.init.fill (eng.searchAt "fhirstore.observation" primaryBodyC5)
          saC5.formatting_args)
        (fun b => some (b, [EngineCall.search "fhirstore.observation" primaryBodyC5])) := rfl
  rw [hprim] at e1
  have e2 : FHIRStore.search ⟨["Observation", "Patient"], eng⟩ saC5 =
      some (bundlePC5 n, [EngineCall.search "fhirstore.observation" primaryBodyC5]) := by
    rw [e1]
    rfl
  have e3 : FHIRStore.include_stage ⟨["Observation", "Patient"], eng⟩ saC5 (bundlePC5 n) =
      (do
        let bundle2 ← (bundlePC5 n).append
          (eng.searchAt "fhirstore.patient" (idLookupBody "p2")) saC5.formatting_args
        pure (bundle2,
          [EngineCall.search "fhirstore.patient" (idLookupBody "p1"),
           EngineCall.search "fhirstore.patient" (idLookupBody "p2")])) := rfl
  rw [hp2] at e3
  have e5 : FHIRStore.comprehensive_search ⟨["Observation", "Patient"], eng⟩ "Observation"
        [("_include", ["Observation:subject"])] =
      (do
        let (bundle, tMain) ← FHIRStore.search ⟨["Observation", "Patient"], eng⟩ saC5
        let (bundle2, tInc) ←
          FHIRStore.include_stage ⟨["Observation", "Patient"], eng⟩ saC5 bundle
        pure (bundle2, [] ++ tMain ++ tInc)) := rfl
  rw [e2] at e5
  rw [e5]
  show (do
      let (bundle2, tInc) ←
        FHIRStore.include_stage ⟨["Observation", "Patient"], eng⟩ saC5 (bundlePC5 n)
      pure (bundle2,
        [] ++ [EngineCall.search "fhirstore.observation" primaryBodyC5] ++ tInc)) = _
  rw [e3]
  cases l2 with
  | nil => simp [Bundle.append, bundlePC5, truthyL, saC5]
  | cons x xs => simp [Bundle.append, bundlePC5, truthyL, saC5]

/-- Witness for C5 amended at the concrete two-patient engine. -/
theorem C5_only_last_lookup_appended_witness :
    FHIRStore.comprehensive_search ⟨["Observation", "Patient"], engC5⟩ "Observation"
        [("_include", ["Observation:subject"])] =
      some ({ resource_type := "Bundle", total := some 2,
              entry := some ([⟨obs1C5, "match"⟩, ⟨obs2C5, "match"⟩] ++
                [pat2C5].map (fun h => EntryItem.mk h "include")),
              tag := none, issue := none },
            [EngineCall.search "fhirstore.observation" primaryBodyC5,
             EngineCall.search "fhirstore.patient" (idLookupBody "p1"),
             EngineCall.search "fhirstore.patient" (idLookupBody "p2")]) :=
  C5_only_last_lookup_appended engC5 2 1 [pat2C5] rfl rfl

/-- C7 counterexample: parsing `_count=0` leaves `is_summary_count` false
and sets `result_size` to `0`, and the search then executes as an ordinary
paginated `es.search` with page size 0 — not as a count request. -/
theorem C7_count_zero_not_count_mode :
    ((SearchArguments.parse [("_count", ["0"])] "Patient").map
       (fun sa => (sa.formatting_args.is_summary_count, sa.result_size)) =
      some (false, 0)) ∧
    FHIRStore.comprehensive_search storeC7 "Patient" [("_count", ["0"])] =
      some ({ resource_type := "Bundle", total := some 7, entry := some [],
              tag := none, issue := none },
            [EngineCall.search "fhirstore.patient"
               { hasMinScore := true, fromOff := some 0, size := some 0,
                 query := .matchAll, sort := none, source := none }]) :=
  ⟨rfl, rfl⟩

/-- C7 amended: `_count=0` yields a paginated fetch of page size 0 (the
engine call is a `search` with `size = 0`), while count-only execution —
an `es.count` call, entry list dropped — is triggered by `_summary=count`
only. -/
theorem C7_count_zero_vs_summary_count :
    ((SearchArguments.parse [("_count", ["0"])] "Patient").map
       (fun sa => (sa.formatting_args.is_summary_count, sa.result_size)) =
      some (false, 0)) ∧
    ((SearchArguments.parse [("_summary", ["count"])] "Patient").map
       (fun sa => (sa.formatting_args.is_summary_count, sa.result_size)) =
      some (true, 100)) ∧
    FHIRStore.comprehensive_search storeC7 "Patient" [("_count", ["0"])] =
      some ({ resource_type := "Bundle", total := some 7, entry := some [],
              tag := none, issue := none },
            [EngineCall.search "fhirstore.patient"
               { hasMinScore := true, fromOff := some 0, size := some 0,
                 query := .matchAll, sort := none, source := none }]) ∧
    FHIRStore.comprehensive_search storeC7 "Patient" [("_summary", ["count"])] =
      some ({ resource_type := "Bundle", total := some 7, entry := none,
              tag := some "SUBSETTED", issue := none },
            [EngineCall.count "fhirstore.patient" .matchAll]) :=
  ⟨rfl, rfl, rfl, rfl⟩
